import Mathlib

/-!
Verification of the WiFi connection-lifecycle core (wifi_functions.cpp /
wifi_functions.h) against its design specification.

The C++ code is shallowly embedded: the global `wifi_state` and the static
`last` of `WiFiStatusCheck` become explicit state values threaded through the
functions; calls into the external network subsystem (Serial prints, delays,
`WiFi.reconnect`, `WiFi.begin`, `esp_wifi_wps_*`, `WiFi.mode`) become entries
of an `Effect` trace returned alongside the new state.
-/

namespace WifiFunctions

/-- The four connection states from wifi_functions.h (`enum { STATE_DISC = 0, STATE_WPS, STATE_CONN, STATE_FAIL }`). -/
def STATE_DISC : Nat := 0

def STATE_WPS : Nat := 1

def STATE_CONN : Nat := 2

def STATE_FAIL : Nat := 3

/-- Human-readable labels `_wifi_state_str` from wifi_functions.cpp. -/
def _wifi_state_str : List String := ["disc", "WPS", "conn", "fail"]

/-- Raw link-status sentinel `WL_NO_SHIELD` (Arduino wl_status_t, value 255). -/
def WL_NO_SHIELD : Nat := 255

/-- Raw link status `WL_CONNECTED` (Arduino wl_status_t, value 3). -/
def WL_CONNECTED : Nat := 3

/-- Raw link status `WL_DISCONNECTED` (Arduino wl_status_t, value 6). -/
def WL_DISCONNECTED : Nat := 6

/-- WPS mode selector `WPS_TYPE_PBC` (push-button configuration, esp_wps.h value 1). -/
def WPS_TYPE_PBC : Nat := 1

/-- Station (client) mode selector `WIFI_MODE_STA` (esp_wifi_types.h value 1). -/
def WIFI_MODE_STA : Nat := 1

/-- Fixed device-identity string `ESP_MANUFACTURER` from wifi_functions.cpp. -/
def ESP_MANUFACTURER : String := "ESPRESSIF"

/-- Fixed device-identity string `ESP_MODEL_NUMBER` from wifi_functions.cpp. -/
def ESP_MODEL_NUMBER : String := "ESP32"

/-- Fixed device-identity string `ESP_MODEL_NAME` from wifi_functions.cpp. -/
def ESP_MODEL_NAME : String := "ESPRESSIF IOT"

/-- Fixed device-identity string `ESP_DEVICE_NAME` from wifi_functions.cpp. -/
def ESP_DEVICE_NAME : String := "ESP STATION"

/-- The `factory_info` sub-structure of `esp_wps_config_t`. -/
structure FactoryInfo where
  manufacturer : String
  model_number : String
  model_name : String
  device_name : String
  deriving DecidableEq, Repr

/-- The fields of `esp_wps_config_t` that wifi_functions.cpp assigns. -/
structure EspWpsConfig where
  wps_type : Nat
  factory_info : FactoryInfo
  deriving DecidableEq, Repr

/-- The event kinds dispatched on by `WiFiEvent` in wifi_functions.cpp; every
value of `WiFiEvent_t` not among the six recognized cases is represented by
`OTHER` with its numeric code. -/
inductive WiFiEvent_t where
  | SYSTEM_EVENT_STA_START
  | SYSTEM_EVENT_STA_GOT_IP
  | SYSTEM_EVENT_STA_DISCONNECTED
  | SYSTEM_EVENT_STA_WPS_ER_SUCCESS
  | SYSTEM_EVENT_STA_WPS_ER_FAILED
  | SYSTEM_EVENT_STA_WPS_ER_TIMEOUT
  | OTHER (code : Nat)
  deriving DecidableEq, Repr

/-- Observable calls out of the core: diagnostics on the serial port, delays,
and requests into the network subsystem. -/
inductive Effect where
  | serialPrint (msg : String)
  | delayMs (ms : Nat)
  | reconnect
  | beginConn
  | wpsDisable
  | wpsEnable (cfg : EspWpsConfig)
  | wpsStart (timeout : Nat)
  | setMode (m : Nat)
  | subscribe
  deriving DecidableEq, Repr

/-- Number of occurrences of one effect in a trace. -/
def countEffect (e : Effect) (l : List Effect) : Nat :=
  (l.filter (fun x => decide (x = e))).length

/-- The event handler `WiFiEvent` of wifi_functions.cpp. The globals it reads
(`WiFi.SSID()`, `WiFi.localIP()`) are the parameters `ssid` and `ip`; the
global `wifi_state` it reads and writes is the parameter `st` and the first
component of the result; the effect trace lists its outward calls in program
order. -/
def WiFiEvent (ssid ip : String) (st : Nat) : WiFiEvent_t → Nat × List Effect
  | .SYSTEM_EVENT_STA_START =>
      (STATE_DISC, [Effect.serialPrint "Station Mode Started"])
  | .SYSTEM_EVENT_STA_GOT_IP =>
      (STATE_CONN,
       [Effect.serialPrint ("Connected to: " ++ ssid ++ ", Got IP: "),
        Effect.serialPrint ip])
  | .SYSTEM_EVENT_STA_DISCONNECTED =>
      (STATE_DISC,
       [Effect.delayMs 100,
        Effect.serialPrint "Disconnected from station, attempting reconnection",
        Effect.reconnect])
  | .SYSTEM_EVENT_STA_WPS_ER_SUCCESS =>
      (STATE_DISC,
       [Effect.serialPrint
          ("WPS Successful, stopping WPS and connecting to: " ++ ssid ++ "\r\n"),
        Effect.wpsDisable,
        Effect.delayMs 10,
        Effect.beginConn])
  | .SYSTEM_EVENT_STA_WPS_ER_FAILED =>
      (STATE_DISC,
       [Effect.serialPrint "WPS Failed, retrying normal connect",
        Effect.wpsDisable,
        Effect.delayMs 10,
        Effect.beginConn])
  | .SYSTEM_EVENT_STA_WPS_ER_TIMEOUT =>
      (STATE_DISC,
       [Effect.serialPrint "WPS Timedout, trying normal connect...",
        Effect.wpsDisable,
        Effect.delayMs 10,
        Effect.beginConn])
  | .OTHER _ => (st, [])

/-- `start_WPS` of wifi_functions.cpp: writes `wifi_state := STATE_WPS`,
switches to station mode, fills `wps_config` with the fixed identity strings
and the push-button selector, then issues `esp_wifi_wps_enable` followed by
`esp_wifi_wps_start(0)`. The previous config `cfg` is overwritten. -/
def start_WPS (_st : Nat) (_cfg : EspWpsConfig) : Nat × EspWpsConfig × List Effect :=
  let cfg2 : EspWpsConfig :=
    { wps_type := WPS_TYPE_PBC,
      factory_info :=
        { manufacturer := ESP_MANUFACTURER,
          model_number := ESP_MODEL_NUMBER,
          model_name := ESP_MODEL_NAME,
          device_name := ESP_DEVICE_NAME } }
  (STATE_WPS, cfg2,
   [Effect.serialPrint "Starting WPS",
    Effect.setMode WIFI_MODE_STA,
    Effect.wpsEnable cfg2,
    Effect.wpsStart 0,
    Effect.serialPrint "end start_WPS()"])

/-- `start_WiFi` of wifi_functions.cpp: registers the event handler and
requests the initial connection; it touches no state. -/
def start_WiFi : List Effect := [Effect.subscribe, Effect.beginConn]

/-- `WiFiStatusCheck` of wifi_functions.cpp. The raw status read from
`WiFi.status()` is the parameter `now`; the global `wifi_state` is `st`; the
static local `last` is `last`. Returns the new `wifi_state`, the new `last`,
and the trace. -/
def WiFiStatusCheck (now st last : Nat) : Nat × Nat × List Effect :=
  if now = last then (st, last, [])
  else
    ((if now = WL_CONNECTED then STATE_CONN else STATE_DISC), now,
     [Effect.serialPrint
        ("WiFI status changed from: " ++ toString last ++ " to: " ++ toString now)])

/-- Running the event handler over a list of events, threading `wifi_state`
and concatenating the traces. -/
def runEvents (ssid ip : String) (st : Nat) : List WiFiEvent_t → Nat × List Effect
  | [] => (st, [])
  | e :: es =>
      let r := WiFiEvent ssid ip st e
      let r2 := runEvents ssid ip r.1 es
      (r2.1, r.2 ++ r2.2)

/-- One externally triggerable operation of the core. -/
inductive Op where
  | event (e : WiFiEvent_t)
  | startWPS
  | startWiFi
  | poll (raw : Nat)
  deriving DecidableEq, Repr

/-- The whole mutable state of wifi_functions.cpp: the global `wifi_state`,
the static `wps_config`, and the static `last` of `WiFiStatusCheck`. -/
structure Sys where
  wifi_state : Nat
  wps_config : EspWpsConfig
  last : Nat
  deriving DecidableEq, Repr

/-- Process-start state: `wifi_state = STATE_DISC`, the static `wps_config`
zero-initialized, and `last = WL_NO_SHIELD`. -/
def initSys : Sys :=
  { wifi_state := STATE_DISC,
    wps_config := ⟨0, ⟨"", "", "", ""⟩⟩,
    last := WL_NO_SHIELD }

/-- One operation applied to the whole state. -/
def runOp (ssid ip : String) (s : Sys) : Op → Sys × List Effect
  | .event e =>
      let r := WiFiEvent ssid ip s.wifi_state e
      ({ s with wifi_state := r.1 }, r.2)
  | .startWPS =>
      let r := start_WPS s.wifi_state s.wps_config
      ({ s with wifi_state := r.1, wps_config := r.2.1 }, r.2.2)
  | .startWiFi => (s, start_WiFi)
  | .poll raw =>
      let r := WiFiStatusCheck raw s.wifi_state s.last
      ({ s with wifi_state := r.1, last := r.2.1 }, r.2.2)

/-- A sequence of operations applied to the whole state. -/
def runOps (ssid ip : String) (s : Sys) : List Op → Sys × List Effect
  | [] => (s, [])
  | op :: ops =>
      let r := runOp ssid ip s op
      let r2 := runOps ssid ip r.1 ops
      (r2.1, r.2 ++ r2.2)

end WifiFunctions

namespace WifiFunctions

/-- A state value actually used by the transition logic: one of
`STATE_DISC`, `STATE_WPS`, `STATE_CONN`. -/
def goodState (n : Nat) : Prop :=
  n = STATE_DISC ∨ n = STATE_WPS ∨ n = STATE_CONN

theorem runEvents_append_single (ssid ip : String) (e : WiFiEvent_t)
    (es : List WiFiEvent_t) (st : Nat) :
    (runEvents ssid ip st (es ++ [e])).1 =
      (WiFiEvent ssid ip (runEvents ssid ip st es).1 e).1 := by
  induction es generalizing st with
  | nil => rfl
  | cons e2 es ih =>
      simp only [List.cons_append, runEvents]
      exact ih _

theorem runOp_goodState (ssid ip : String) (s : Sys) (op : Op)
    (h : goodState s.wifi_state) :
    goodState (runOp ssid ip s op).1.wifi_state := by
  cases op with
  | event e =>
      cases e <;> simp_all [runOp, WiFiEvent, goodState]
  | startWPS =>
      simp [runOp, start_WPS, goodState]
  | startWiFi =>
      simpa [runOp, start_WiFi, goodState] using h
  | poll raw =>
      show goodState (WiFiStatusCheck raw s.wifi_state s.last).1
      by_cases h1 : raw = s.last
      · simpa [WiFiStatusCheck, h1] using h
      · by_cases h2 : raw = WL_CONNECTED
        · subst h2
          simp [WiFiStatusCheck, h1, goodState, STATE_CONN, STATE_DISC, STATE_WPS]
        · simp [WiFiStatusCheck, h1, h2, goodState, STATE_CONN, STATE_DISC, STATE_WPS]

theorem runOps_goodState (ssid ip : String) (ops : List Op) (s : Sys)
    (h : goodState s.wifi_state) :
    goodState (runOps ssid ip s ops).1.wifi_state := by
  induction ops generalizing s with
  | nil => exact h
  | cons op ops ih =>
      simp only [runOps]
      exact ih _ (runOp_goodState ssid ip s op h)

/-- Claim C1: delivering any of the three WPS outcome events
(success, failure, timeout) leaves the tracked state at `STATE_DISC`,
with exactly one `esp_wifi_wps_disable` call and exactly one `WiFi.begin`
call in the handler's trace. -/
theorem wps_outcome_recovery (ssid ip : String) (st : Nat) (e : WiFiEvent_t)
    (h : e = WiFiEvent_t.SYSTEM_EVENT_STA_WPS_ER_SUCCESS ∨
         e = WiFiEvent_t.SYSTEM_EVENT_STA_WPS_ER_FAILED ∨
         e = WiFiEvent_t.SYSTEM_EVENT_STA_WPS_ER_TIMEOUT) :
    (WiFiEvent ssid ip st e).1 = STATE_DISC ∧
    countEffect Effect.wpsDisable (WiFiEvent ssid ip st e).2 = 1 ∧
    countEffect Effect.beginConn (WiFiEvent ssid ip st e).2 = 1 := by
  rcases h with h | h | h <;> subst h <;> exact ⟨rfl, rfl, rfl⟩

/-- Witness for C1: the timeout event at state `STATE_WPS`. -/
theorem wps_outcome_recovery_witness :
    (WiFiEvent "net" "10.0.0.2" STATE_WPS
        WiFiEvent_t.SYSTEM_EVENT_STA_WPS_ER_TIMEOUT).1 = STATE_DISC ∧
    countEffect Effect.wpsDisable
      (WiFiEvent "net" "10.0.0.2" STATE_WPS
        WiFiEvent_t.SYSTEM_EVENT_STA_WPS_ER_TIMEOUT).2 = 1 ∧
    countEffect Effect.beginConn
      (WiFiEvent "net" "10.0.0.2" STATE_WPS
        WiFiEvent_t.SYSTEM_EVENT_STA_WPS_ER_TIMEOUT).2 = 1 :=
  wps_outcome_recovery "net" "10.0.0.2" STATE_WPS _ (Or.inr (Or.inr rfl))

/-- Claim C2: any event sequence ending in the disconnect (link-lost) event
leaves the tracked state at `STATE_DISC`, and the handling of that last event
issues exactly one `WiFi.reconnect` call. -/
theorem link_lost_recovery (ssid ip : String) (st : Nat) (es : List WiFiEvent_t) :
    (runEvents ssid ip st
        (es ++ [WiFiEvent_t.SYSTEM_EVENT_STA_DISCONNECTED])).1 = STATE_DISC ∧
    countEffect Effect.reconnect
      (WiFiEvent ssid ip (runEvents ssid ip st es).1
        WiFiEvent_t.SYSTEM_EVENT_STA_DISCONNECTED).2 = 1 := by
  refine ⟨?_, rfl⟩
  rw [runEvents_append_single]
  rfl

/-- Claim C3: an event outside the six recognized kinds leaves the state
unchanged and produces an empty trace (no subsystem request of any kind). -/
theorem unrecognized_event_ignored (ssid ip : String) (st : Nat) (code : Nat) :
    WiFiEvent ssid ip st (WiFiEvent_t.OTHER code) = (st, []) := rfl

/-- Claim C4: a second `WiFiStatusCheck` with the same raw status as the
first is a no-op: same state, same cached status, empty trace. -/
theorem poll_unchanged_no_effect (raw st last : Nat) :
    WiFiStatusCheck raw (WiFiStatusCheck raw st last).1
        (WiFiStatusCheck raw st last).2.1 =
      ((WiFiStatusCheck raw st last).1, (WiFiStatusCheck raw st last).2.1, []) := by
  by_cases h : raw = last <;> simp [WiFiStatusCheck, h]

/-- Claim C5: when the raw status differs from the cached one,
`WiFiStatusCheck` sets the state to `STATE_CONN` exactly when the raw status
is `WL_CONNECTED` (else `STATE_DISC`), caches the new raw value, and emits
one diagnostic. -/
theorem poll_changed_updates (raw st last : Nat) (h : raw ≠ last) :
    (WiFiStatusCheck raw st last).1 =
      (if raw = WL_CONNECTED then STATE_CONN else STATE_DISC) ∧
    (WiFiStatusCheck raw st last).2.1 = raw ∧
    (WiFiStatusCheck raw st last).2.2 =
      [Effect.serialPrint
        ("WiFI status changed from: " ++ toString last ++ " to: " ++ toString raw)] := by
  simp [WiFiStatusCheck, h]

/-- Witness for C5: the connected-to-disconnected transition
(`WL_CONNECTED` cached, `WL_DISCONNECTED` read) sets `STATE_DISC` and
updates the cache. -/
theorem poll_changed_updates_witness :
    (WiFiStatusCheck WL_DISCONNECTED STATE_CONN WL_CONNECTED).1 = STATE_DISC ∧
    (WiFiStatusCheck WL_DISCONNECTED STATE_CONN WL_CONNECTED).2.1 = WL_DISCONNECTED := by
  have h := poll_changed_updates WL_DISCONNECTED STATE_CONN WL_CONNECTED (by decide)
  exact ⟨by rw [h.1]; decide, h.2.1⟩

/-- Claim C6: from the initial state, no sequence of events, `start_WPS`,
`start_WiFi` and `WiFiStatusCheck` calls ever reaches `STATE_FAIL`; the
reachable states are exactly among `STATE_DISC`, `STATE_WPS`, `STATE_CONN`. -/
theorem failed_state_unreachable (ssid ip : String) (ops : List Op) :
    ((runOps ssid ip initSys ops).1.wifi_state = STATE_DISC ∨
     (runOps ssid ip initSys ops).1.wifi_state = STATE_WPS ∨
     (runOps ssid ip initSys ops).1.wifi_state = STATE_CONN) ∧
    (runOps ssid ip initSys ops).1.wifi_state ≠ STATE_FAIL := by
  have h := runOps_goodState ssid ip ops initSys (Or.inl rfl)
  refine ⟨h, ?_⟩
  rcases h with h | h | h <;> rw [h] <;> decide

/-- Claim C7: `start_WPS` sets `STATE_WPS`, overwrites the WPS configuration
with the push-button selector and the four fixed identity strings, and emits
the trace: diagnostic, station-mode switch, wps-enable (carrying that
configuration), wps-start, closing diagnostic — enable strictly before
start. -/
theorem start_WPS_contract (st : Nat) (cfg : EspWpsConfig) :
    (start_WPS st cfg).1 = STATE_WPS ∧
    (start_WPS st cfg).2.1 =
      { wps_type := WPS_TYPE_PBC,
        factory_info :=
          { manufacturer := ESP_MANUFACTURER,
            model_number := ESP_MODEL_NUMBER,
            model_name := ESP_MODEL_NAME,
            device_name := ESP_DEVICE_NAME } } ∧
    (start_WPS st cfg).2.2 =
      [Effect.serialPrint "Starting WPS",
       Effect.setMode WIFI_MODE_STA,
       Effect.wpsEnable (start_WPS st cfg).2.1,
       Effect.wpsStart 0,
       Effect.serialPrint "end start_WPS()"] :=
  ⟨rfl, rfl, rfl⟩

/-- Counterexample to C8 as stated: handling the interface-started event is
not side-effect-free — it prints the "Station Mode Started" diagnostic. -/
theorem sta_start_emits_diagnostic :
    (WiFiEvent "net" "10.0.0.2" STATE_DISC
        WiFiEvent_t.SYSTEM_EVENT_STA_START).2 ≠ [] := by
  decide

/-- Claim C8 (amended): the state starts at `STATE_DISC`; the sequence
interface-started then address-acquired ends at `STATE_CONN`;
interface-started sets `STATE_DISC` issuing no subsystem request but emitting
a diagnostic; address-acquired emits the SSID/address diagnostics. -/
theorem init_then_connected (ssid ip : String) :
    initSys.wifi_state = STATE_DISC ∧
    (runEvents ssid ip initSys.wifi_state
        [WiFiEvent_t.SYSTEM_EVENT_STA_START,
         WiFiEvent_t.SYSTEM_EVENT_STA_GOT_IP]).1 = STATE_CONN ∧
    WiFiEvent ssid ip initSys.wifi_state WiFiEvent_t.SYSTEM_EVENT_STA_START =
      (STATE_DISC, [Effect.serialPrint "Station Mode Started"]) ∧
    (WiFiEvent ssid ip STATE_DISC WiFiEvent_t.SYSTEM_EVENT_STA_GOT_IP) =
      (STATE_CONN,
       [Effect.serialPrint ("Connected to: " ++ ssid ++ ", Got IP: "),
        Effect.serialPrint ip]) :=
  ⟨rfl, rfl, rfl, rfl⟩

/-- Claim C9: a status poll that observes a changed raw status while the
tracked state is `STATE_WPS` overwrites the state to `STATE_CONN` or
`STATE_DISC` — it never preserves `STATE_WPS`. -/
theorem poll_overwrites_provisioning (raw last : Nat) (h : raw ≠ last) :
    (WiFiStatusCheck raw STATE_WPS last).1 ≠ STATE_WPS ∧
    ((WiFiStatusCheck raw STATE_WPS last).1 = STATE_CONN ∨
     (WiFiStatusCheck raw STATE_WPS last).1 = STATE_DISC) := by
  by_cases h2 : raw = WL_CONNECTED
  · subst h2
    simp only [WiFiStatusCheck, if_neg h]
    decide
  · simp only [WiFiStatusCheck, if_neg h, if_neg h2]
    decide

/-- Witness for C9: a poll reading `WL_CONNECTED` against the initial cache
moves the state out of `STATE_WPS`. -/
theorem poll_overwrites_provisioning_witness :
    (WiFiStatusCheck WL_CONNECTED STATE_WPS WL_NO_SHIELD).1 ≠ STATE_WPS ∧
    ((WiFiStatusCheck WL_CONNECTED STATE_WPS WL_NO_SHIELD).1 = STATE_CONN ∨
     (WiFiStatusCheck WL_CONNECTED STATE_WPS WL_NO_SHIELD).1 = STATE_DISC) :=
  poll_overwrites_provisioning WL_CONNECTED WL_NO_SHIELD (by decide)

/-- Claim C10: the cache starts at `WL_NO_SHIELD`, so the first poll is a
no-op exactly when it reads `WL_NO_SHIELD`; any other reading emits one
diagnostic, writes the state (`STATE_CONN` iff `WL_CONNECTED`), and caches
the reading. -/
theorem first_poll_behavior (raw st : Nat) :
    initSys.last = WL_NO_SHIELD ∧
    (raw = WL_NO_SHIELD →
      WiFiStatusCheck raw st initSys.last = (st, WL_NO_SHIELD, [])) ∧
    (raw ≠ WL_NO_SHIELD →
      (WiFiStatusCheck raw st initSys.last).1 =
        (if raw = WL_CONNECTED then STATE_CONN else STATE_DISC) ∧
      (WiFiStatusCheck raw st initSys.last).2.1 = raw ∧
      (WiFiStatusCheck raw st initSys.last).2.2.length = 1) := by
  refine ⟨rfl, ?_, ?_⟩
  · intro h
    simp [WiFiStatusCheck, initSys, h]
  · intro h
    have h2 : raw ≠ initSys.last := h
    have h3 := poll_changed_updates raw st initSys.last h2
    exact ⟨h3.1, h3.2.1, by rw [h3.2.2]; rfl⟩

/-- Witness for C10: reading `WL_NO_SHIELD` is a no-op; reading
`WL_CONNECTED` sets `STATE_CONN`. -/
theorem first_poll_behavior_witness :
    WiFiStatusCheck WL_NO_SHIELD STATE_DISC initSys.last =
      (STATE_DISC, WL_NO_SHIELD, []) ∧
    (WiFiStatusCheck WL_CONNECTED STATE_DISC initSys.last).1 = STATE_CONN := by
  have h1 := (first_poll_behavior WL_NO_SHIELD STATE_DISC).2.1 rfl
  have h2 := (first_poll_behavior WL_CONNECTED STATE_DISC).2.2 (by decide)
  exact ⟨h1, by rw [h2.1]; decide⟩

end WifiFunctions
